import Mathlib

/-!
Verification of the econet-mqtt-publisher core (`mqtt_publisher.py`):
a shallow embedding of the JSON-path resolver, value rendering, the
per-metric publish sweep, the Home Assistant discovery payload builder,
the availability (LWT) protocol and the polling scheduler, together with
proofs of the specified properties.
-/

set_option autoImplicit false

namespace Econet

/-- Document values handled by the publisher: the JSON telemetry document as
Python represents it (`None`, `bool`, `int`, `str`, `list`, `dict`).
Numeric scalars are modelled as integers and strings; none of the verified
properties depends on floating point. -/
inductive Document where
  | null : Document
  | bool (b : Bool) : Document
  | int (i : Int) : Document
  | str (s : String) : Document
  | arr (xs : List Document) : Document
  | obj (fields : List (String × Document)) : Document

/-- Path segments of the fixed extraction paths in `topic_mappings`:
a string key or an integer index. -/
inductive Seg where
  | str (k : String) : Seg
  | int (i : Int) : Seg
deriving DecidableEq, Repr

/-- Python exception kinds relevant to `_get_nested_value` and the fetch
path. `attrError` is included so that the catch-set statement is not vacuous. -/
inductive PyErr where
  | keyError | indexError | typeError | valueError | attrError
deriving DecidableEq, Repr

/-- Exception kinds caught by the `except (KeyError, IndexError, TypeError,
ValueError)` clause of `_get_nested_value`. -/
def caughtErr : PyErr → Bool
  | .keyError => true
  | .indexError => true
  | .typeError => true
  | .valueError => true
  | .attrError => false

/-- Check that a character list contains no two consecutive underscores. -/
def noDoubleUnderscore : List Char → Bool
  | c1 :: c2 :: rest => !(c1 == '_' && c2 == '_') && noDoubleUnderscore (c2 :: rest)
  | _ => true

/-- Digit-group syntax of a Python decimal integer literal: nonempty, all
digits or single interior underscores, starting and ending with a digit;
returns its numeric value. -/
def pyIntDigits (cs : List Char) : Option Nat :=
  if cs.isEmpty then none
  else if cs.all (fun c => c.isDigit || c == '_')
      && cs.head?.all Char.isDigit
      && cs.getLast?.all Char.isDigit
      && noDoubleUnderscore cs
  then some ((cs.filter Char.isDigit).foldl (fun a c => a * 10 + (c.toNat - 48)) 0)
  else none

/-- Whitespace characters stripped by Python `int()` around a numeric string. -/
def pyWs (c : Char) : Bool :=
  c == ' ' || c == '\t' || c == '\n' || c == '\r'

/-- Strip leading and trailing whitespace from a character list. -/
def trimChars (cs : List Char) : List Char :=
  ((cs.dropWhile pyWs).reverse.dropWhile pyWs).reverse

/-- Model of Python `int()` applied to a string: surrounding whitespace is
stripped, then an optional sign and a decimal digit group; anything else
raises `ValueError`. -/
def pyInt (s : String) : Except PyErr Int :=
  match trimChars s.data with
  | [] => Except.error .valueError
  | c :: rest =>
    match pyIntDigits (if c == '-' || c == '+' then rest else c :: rest) with
    | some n => Except.ok (if c == '-' then -(n : Int) else (n : Int))
    | none => Except.error .valueError

/-- Python list indexing semantics for `current[i]`: a negative index counts
from the end; out-of-range yields `none` (an `IndexError` at the call site). -/
def pyIndex (xs : List Document) (i : Int) : Option Document :=
  let j := if i < 0 then (xs.length : Int) + i else i
  if 0 ≤ j ∧ j < (xs.length : Int) then xs.get? j.toNat else none

/-- Python dict lookup `current[key]` on a string-keyed object. -/
def objGet (fields : List (String × Document)) (k : String) : Option Document :=
  (fields.find? (fun kv => kv.1 == k)).map (fun kv => kv.2)

/-- Conversion of a path segment to the integer that `int(key)` produces in
the list branch of `_get_nested_value`; a non-numeric string key raises
`ValueError` there. -/
def segToInt : Seg → Except PyErr Int
  | .int i => Except.ok i
  | .str s => pyInt s

/-- The walking loop of `_get_nested_value` (lines 222-229): descend through
dicts by key and through lists by `int(key)`; a value that is neither dict
nor list with segments remaining triggers the early `return None`. -/
def walkBody : Document → List Seg → Except PyErr Document
  | cur, [] => Except.ok cur
  | .obj fields, .str k :: rest =>
    match objGet fields k with
    | some v => walkBody v rest
    | none => Except.error .keyError
  | .obj _, .int _ :: _ => Except.error .keyError
  | .arr xs, sg :: rest =>
    (match segToInt sg with
     | Except.error e => Except.error e
     | Except.ok i =>
       match pyIndex xs i with
       | some v => walkBody v rest
       | none => Except.error .indexError)
  | _, _ :: _ => Except.ok Document.null

/-- Terminal-array convention of `_get_nested_value` (lines 231-234): if the
final value is a non-empty list, take its first element. -/
def unwrapTerminal : Document → Document
  | .arr (x :: _) => x
  | d => d

/-- Body of `_get_nested_value` before the `try`/`except` wrapper: walk the
path, then apply the terminal-array unwrap. -/
def getNestedBody (d : Document) (p : List Seg) : Except PyErr Document :=
  (walkBody d p).map unwrapTerminal

/-- Exception-level model of `_get_nested_value`: the `except (KeyError,
IndexError, TypeError, ValueError)` clause maps those errors to `None`
(modelled as `Document.null`, Python `None`); any other exception would
propagate to the caller. -/
def getNestedValueExc (d : Document) (p : List Seg) : Except PyErr Document :=
  match getNestedBody d p with
  | Except.ok v => Except.ok v
  | Except.error e => if caughtErr e then Except.ok Document.null else Except.error e

/-- Total view of `_get_nested_value`: the value returned to the caller,
with every failure mode normalised to `Document.null` (Python `None`). -/
def getNestedValue (d : Document) (p : List Seg) : Document :=
  match getNestedValueExc d p with
  | Except.ok v => v
  | Except.error _ => Document.null

/-- Test `value is None` as `_publish_metrics` does. -/
def Document.isNone : Document → Bool
  | .null => true
  | _ => false

/-- The apostrophe character used by Python `repr` to quote strings. -/
def pyQuote : String := String.singleton (Char.ofNat 39)

mutual

/-- Python `repr` of a document value, as used by `str()` on containers. -/
def pyRepr : Document → String
  | .null => "None"
  | .bool true => "True"
  | .bool false => "False"
  | .int i => toString i
  | .str s => pyQuote ++ s ++ pyQuote
  | .arr xs => "[" ++ String.intercalate ", " (pyReprList xs) ++ "]"
  | .obj fields => "\x7b" ++ String.intercalate ", " (pyReprObj fields) ++ "\x7d"

/-- Python `repr` of each element of a list value. -/
def pyReprList : List Document → List String
  | [] => []
  | x :: xs => pyRepr x :: pyReprList xs

/-- Python `repr` of each `key: value` entry of a dict value. -/
def pyReprObj : List (String × Document) → List String
  | [] => []
  | (k, v) :: fields => (pyQuote ++ k ++ pyQuote ++ ": " ++ pyRepr v) :: pyReprObj fields

end

/-- Python `str()` of a document value, as `_publish_metrics` uses to build
the MQTT payload (line 362). -/
def pyStr : Document → String
  | .str s => s
  | d => pyRepr d

/-- Python truthiness of a document value, as tested by `if data:` in `run`. -/
def pyTruthy : Document → Bool
  | .null => false
  | .bool b => b
  | .int i => i != 0
  | .str s => !s.isEmpty
  | .arr xs => !xs.isEmpty
  | .obj fields => !fields.isEmpty

/-- Python `==` comparison of a document value against an integer literal,
as used by `_convert_valve_state` (`value == 0`, `value == 3`): booleans
compare equal to their numeric value, every non-numeric value is unequal. -/
def pyEqInt : Document → Int → Bool
  | .int i, n => i == n
  | .bool b, n => (if b then (1 : Int) else 0) == n
  | _, _ => false

/-- Model of `_convert_valve_state` (lines 339-346). -/
def convertValveState (v : Document) : String :=
  if pyEqInt v 0 then "CH"
  else if pyEqInt v 3 then "DHW"
  else pyStr v

/-- One entry of `topic_mappings`: metric name and extraction path. -/
structure Metric where
  name : String
  path : List Seg
deriving DecidableEq, Repr

/-- The `topic_mappings` table (lines 64-79), in source (insertion) order. -/
def topicMappings : List Metric :=
  [ ⟨"ashp_ambient_air_temp", [.str "curr", .str "AxenOutdoorTemp"]⟩,
    ⟨"ashp_circuit1_calculated_set_temp", [.str "tilesParams", .int 29, .int 0, .int 0]⟩,
    ⟨"ashp_compressor_freq", [.str "curr", .str "AxenCompressorFreq"]⟩,
    ⟨"ashp_fan_speed", [.str "tilesParams", .int 3, .int 0, .int 0]⟩,
    ⟨"ashp_flow_temp", [.str "curr", .str "AxenOutgoingTemp"]⟩,
    ⟨"ashp_outlet_water_pressure", [.str "tilesParams", .int 76, .int 0, .int 0]⟩,
    ⟨"ashp_pump_active", [.str "curr", .str "AxenUpperPump"]⟩,
    ⟨"ashp_return_temp", [.str "curr", .str "AxenReturnTemp"]⟩,
    ⟨"ashp_target_temp", [.str "curr", .str "HeatSourceCalcPresetTemp"]⟩,
    ⟨"ashp_work_state", [.str "curr", .str "AxenWorkState"]⟩,
    ⟨"circuit1_thermostat", [.str "curr", .str "Circuit1thermostat"]⟩,
    ⟨"dhw_temp", [.str "curr", .str "TempCWU"]⟩,
    ⟨"outdoor_temp", [.str "curr", .str "TempWthr"]⟩,
    ⟨"three_way_valve_state", [.str "curr", .str "flapValveStates"]⟩ ]

/-- Observable actions of the publisher: MQTT operations and log events,
with log events carried structurally (name and data instead of the
formatted message text). -/
inductive Act where
  | publish (topic : String) (payload : String) (retained : Bool)
  | willSet (topic : String) (payload : String) (retained : Bool)
  | loopStop
  | disconnect
  | infoPolling
  | errFetchFailed
  | warnMissing (name : String) (path : List Seg)
  | errPublishRc (name : String) (rc : Int)
  | errPublishExn (name : String)
  | infoSummary (values : List (String × String))
  | warnNoValues
  | infoConnected
  | errConnectRc (rc : Int)
  | errUnexpected
  | infoShuttingDown
  | infoShutdownComplete
deriving DecidableEq, Repr

/-- Outcome of one `mqtt_client.publish` call: a result object with a
return code, or an exception raised by the call. -/
inductive PubOutcome where
  | ret (rc : Int)
  | exn
deriving DecidableEq, Repr

/-- Whether a publish outcome counts as success (`result.rc ==
mqtt.MQTT_ERR_SUCCESS`, i.e. `rc = 0`). -/
def pubOkBool (out : String → PubOutcome) (n : String) : Bool :=
  match out n with
  | .ret rc => rc == 0
  | .exn => false

/-- The payload string `_publish_metrics` builds for one metric
(lines 357-362): the valve-state enum decode for the designated metric,
plain `str()` otherwise. -/
def pubPayload (doc : Document) (m : Metric) : String :=
  let v := getNestedValue doc m.path
  if m.name = "three_way_valve_state" then convertValveState v else pyStr v

/-- One iteration of the `_publish_metrics` loop (lines 352-372) for one
metric: the emitted actions and the `published_values` entry, if any. -/
def pubStep (out : String → PubOutcome) (pref : String) (doc : Document)
    (m : Metric) : List Act × Option (String × String) :=
  if (getNestedValue doc m.path).isNone then ([.warnMissing m.name m.path], none)
  else
    match out m.name with
    | .ret rc =>
      if rc = 0 then
        ([.publish (pref ++ m.name) (pubPayload doc m) false], some (m.name, pubPayload doc m))
      else
        ([.publish (pref ++ m.name) (pubPayload doc m) false, .errPublishRc m.name rc], none)
    | .exn => ([.errPublishExn m.name], none)

/-- Result of `_publish_metrics`: the emitted actions and the
`published_values` mapping, in order. -/
structure PubRes where
  acts : List Act
  values : List (String × String)
deriving DecidableEq, Repr

/-- The `_publish_metrics` sweep over a list of metrics. -/
def pubSweep (out : String → PubOutcome) (pref : String) (doc : Document) :
    List Metric → PubRes
  | [] => ⟨[], []⟩
  | m :: ms =>
    let s := pubStep out pref doc m
    let r := pubSweep out pref doc ms
    ⟨s.1 ++ r.acts, s.2.toList ++ r.values⟩

/-- Model of `_publish_metrics` (lines 348-378): sweep the whole table,
then emit the summary line, or a warning when nothing was published. -/
def publishMetrics (out : String → PubOutcome) (pref : String) (doc : Document) : PubRes :=
  let r := pubSweep out pref doc topicMappings
  ⟨r.acts ++ (if r.values.isEmpty then [.warnNoValues] else [.infoSummary r.values]), r.values⟩

/-- Names of the metrics recorded as skipped in a sweep's log actions:
a missing-value warning or a publish failure error. -/
def skippedNames (acts : List Act) : List String :=
  acts.filterMap fun a =>
    match a with
    | .warnMissing n _ => some n
    | .errPublishRc n _ => some n
    | .errPublishExn n => some n
    | _ => none

/-- The availability topic derived from the topic prefix (line 56). -/
def availTopic (pref : String) : String := pref ++ "availability"

/-- The last-will registration performed in `__init__` (line 58): retained
`"offline"` on the availability topic. -/
def initWillSet (pref : String) : Act := .willSet (availTopic pref) "offline" true

/-- Model of `_on_mqtt_connect` (lines 203-213): on `rc = 0` log and publish
retained `"online"` to the availability topic, otherwise log an error. -/
def onMqttConnect (pref : String) (rc : Int) : List Act :=
  if rc = 0 then [.infoConnected, .publish (availTopic pref) "online" true]
  else [.errConnectRc rc]

/-- Model of `disconnect_mqtt` (lines 390-398): publish retained
`"offline"`, stop the network loop, disconnect. -/
def disconnectMqtt (pref : String) : List Act :=
  [.publish (availTopic pref) "offline" true, .loopStop, .disconnect]

/-- Availability states of the spec's AvailabilityManager state machine. -/
inductive AvailState where
  | offline
  | online
deriving DecidableEq, Repr

/-- Modelled from the spec: the availability state mirrored on the broker,
read off the action trace as the last payload published to the
availability topic (initially Offline). -/
def availStep (pref : String) (s : AvailState) : Act → AvailState
  | .publish t p _ =>
    if t = availTopic pref then
      if p = "online" then .online else if p = "offline" then .offline else s
    else s
  | _ => s

/-- Modelled from the spec: fold of `availStep` over a trace, starting
from the initial Offline state. -/
def availStateAfter (pref : String) (acts : List Act) : AvailState :=
  acts.foldl (availStep pref) .offline

/-- Outcome of one HTTP fetch attempt against the telemetry endpoint. -/
inductive FetchResult where
  | success (d : Document)
  | reqError
  | jsonError

/-- Model of `_fetch_econet_data` (lines 240-252). Both `except` handlers
call `logger.error(msg, file=sys.stderr)`; `Logger.error` accepts no `file`
keyword argument, so the call itself raises `TypeError` before anything is
logged, and that `TypeError` propagates out of the function. -/
def fetchEconetData : FetchResult → Except PyErr Document
  | .success d => Except.ok d
  | .reqError => Except.error .typeError
  | .jsonError => Except.error .typeError

/-- One poll-cycle body of `run` (lines 413-419): log the cycle start,
fetch, then publish metrics on a truthy document or log the fetch failure.
Returns the emitted actions and the exception escaping the body, if any. -/
def cycleBody (out : String → PubOutcome) (pref : String) (fr : FetchResult) :
    List Act × Option PyErr :=
  match fetchEconetData fr with
  | Except.error e => ([.infoPolling], some e)
  | Except.ok d =>
    if pyTruthy d then ([.infoPolling] ++ (publishMetrics out pref d).acts, none)
    else ([.infoPolling, .errFetchFailed], none)

/-- The inter-cycle wait of `run` (lines 422-425): up to `interval`
one-second sleeps, checking the running flag before each one. `running t`
is the flag value during second `t`; the result is the time at which the
wait hands control back. -/
def waitExit (running : Nat → Bool) : Nat → Nat → Nat
  | 0, t => t
  | n + 1, t => if running t then waitExit running n (t + 1) else t

/-- The `while self.running` loop of `run` (lines 411-428) with the
boundary `except`: cycles are numbered by `cyc`, `t` is the current time in
seconds, and `fuel` bounds the number of iterations modelled. An exception
escaping a cycle body is caught at the loop boundary, logged, and ends the
loop. -/
def runLoop (out : Nat → String → PubOutcome) (pref : String) (interval : Nat) :
    Nat → (Nat → Bool) → (Nat → FetchResult) → Nat → Nat → List Act
  | 0, _, _, _, _ => []
  | fuel + 1, running, fetch, cyc, t =>
    if running t then
      match cycleBody (out cyc) pref (fetch cyc) with
      | (acts, some _) => acts ++ [.errUnexpected]
      | (acts, none) =>
        acts ++ runLoop out pref interval fuel running fetch (cyc + 1)
          (waitExit running interval t)
    else []

/-- Model of the loop-and-shutdown part of `run` (lines 411-433): the loop
followed unconditionally by the `finally` block, which logs and calls
`disconnect_mqtt` before the process exits. -/
def runModel (out : Nat → String → PubOutcome) (pref : String) (interval fuel : Nat)
    (running : Nat → Bool) (fetch : Nat → FetchResult) : List Act :=
  runLoop out pref interval fuel running fetch 0 0
    ++ [.infoShuttingDown] ++ disconnectMqtt pref ++ [.infoShutdownComplete]

/-- One entry of `ha_discovery_configs`: per-metric discovery metadata. -/
structure HaConfig where
  name : String
  deviceClass : Option String := none
  stateClass : Option String := none
  unitOfMeasurement : Option String := none
  icon : String
  payloadOn : Option String := none
  payloadOff : Option String := none
  options : Option (List String) := none
deriving DecidableEq, Repr

/-- The `ha_discovery_configs` table (lines 82-181), in source order. -/
def haDiscoveryConfigs : List (String × HaConfig) :=
  [ ("ashp_ambient_air_temp",
      { name := "ASHP Ambient Air Temperature", deviceClass := some "temperature",
        stateClass := some "measurement", unitOfMeasurement := some "°C",
        icon := "mdi:thermometer" }),
    ("ashp_circuit1_calculated_set_temp",
      { name := "ASHP Circuit 1 Calculated Set Temperature", deviceClass := some "temperature",
        stateClass := some "measurement", unitOfMeasurement := some "°C",
        icon := "mdi:thermometer" }),
    ("ashp_compressor_freq",
      { name := "ASHP Compressor Frequency", deviceClass := some "frequency",
        stateClass := some "measurement", unitOfMeasurement := some "Hz",
        icon := "mdi:sine-wave" }),
    ("ashp_fan_speed",
      { name := "ASHP Fan Speed", stateClass := some "measurement",
        unitOfMeasurement := some "rpm", icon := "mdi:fan" }),
    ("ashp_flow_temp",
      { name := "ASHP Flow Temperature", deviceClass := some "temperature",
        stateClass := some "measurement", unitOfMeasurement := some "°C",
        icon := "mdi:thermometer-chevron-up" }),
    ("ashp_outlet_water_pressure",
      { name := "ASHP Outlet Water Pressure", deviceClass := some "pressure",
        stateClass := some "measurement", unitOfMeasurement := some "bar",
        icon := "mdi:gauge" }),
    ("ashp_pump_active",
      { name := "ASHP Pump", deviceClass := some "running",
        stateClass := some "measurement", icon := "mdi:pump",
        payloadOn := some "1", payloadOff := some "0" }),
    ("ashp_return_temp",
      { name := "ASHP Return Temperature", deviceClass := some "temperature",
        stateClass := some "measurement", unitOfMeasurement := some "°C",
        icon := "mdi:thermometer-chevron-down" }),
    ("ashp_target_temp",
      { name := "ASHP Target Temperature", deviceClass := some "temperature",
        stateClass := some "measurement", unitOfMeasurement := some "°C",
        icon := "mdi:thermometer" }),
    ("ashp_work_state",
      { name := "ASHP Work State", deviceClass := some "running",
        stateClass := some "measurement", icon := "mdi:state-machine",
        payloadOn := some "1", payloadOff := some "0" }),
    ("circuit1_thermostat",
      { name := "Circuit 1 Thermostat Temperature", deviceClass := some "temperature",
        stateClass := some "measurement", unitOfMeasurement := some "°C",
        icon := "mdi:thermostat" }),
    ("dhw_temp",
      { name := "Cylinder Temperature", deviceClass := some "temperature",
        stateClass := some "measurement", unitOfMeasurement := some "°C",
        icon := "mdi:water-thermometer" }),
    ("outdoor_temp",
      { name := "Outdoor Sensor Temperature", deviceClass := some "temperature",
        stateClass := some "measurement", unitOfMeasurement := some "°C",
        icon := "mdi:thermometer" }),
    ("three_way_valve_state",
      { name := "Three Way Valve State", deviceClass := some "enum",
        icon := "mdi:valve", options := some ["CH", "DHW"] }) ]

/-- Component-kind derivation of `_publish_ha_discovery` (lines 270-273):
`binary_sensor` when the device class is `running` or a `payload_on` entry
exists, else `sensor`. -/
def componentOf (c : HaConfig) : String :=
  if c.deviceClass == some "running" || c.payloadOn.isSome then "binary_sensor" else "sensor"

/-- The shared device descriptor built in `_publish_ha_discovery`
(lines 260-266). -/
def deviceInfo (devName : String) : Document :=
  .obj [("identifiers", .arr [.str "econet_mqtt_publisher"]),
        ("name", .str devName),
        ("model", .str "Heat Pump Controller"),
        ("manufacturer", .str "Econet"),
        ("via_device", .str "econet_mqtt_publisher")]

/-- The discovery payload object built by `_publish_ha_discovery`
(lines 284-323) for one metric, as an ordered key/value list. -/
def discoveryPayload (interval : Nat) (pref devName tn : String) (c : HaConfig) :
    List (String × Document) :=
  let comp := componentOf c
  let uid := "econet_" ++ tn
  [("name", .str c.name), ("unique_id", .str uid),
   ("state_topic", .str (pref ++ tn)), ("device", deviceInfo devName),
   ("icon", .str c.icon),
   ("availability_topic", .str (availTopic pref)),
   ("payload_available", .str "online"), ("payload_not_available", .str "offline")]
  ++ (if comp = "sensor" then [("expire_after", Document.int (interval * 4))] else [])
  ++ (match c.deviceClass with
      | some dc => [("device_class", Document.str dc)]
      | none => [])
  ++ (match c.unitOfMeasurement with
      | some u => [("unit_of_measurement", Document.str u)]
      | none => [])
  ++ (match c.stateClass with
      | some sc => [("state_class", Document.str sc)]
      | none => [])
  ++ (if comp = "binary_sensor" then
        (match c.payloadOn with
         | some p => [("payload_on", Document.str p)]
         | none => [])
        ++ (match c.payloadOff with
            | some p => [("payload_off", Document.str p)]
            | none => [])
      else [])
  ++ (if c.deviceClass == some "enum" && c.options.isSome then
        [("options", Document.arr ((c.options.getD []).map Document.str))]
      else [])

/-- Lookup of a key in an ordered key/value payload. -/
def kvLookup (k : String) (l : List (String × Document)) : Option Document :=
  (l.find? (fun kv => kv.1 == k)).map (fun kv => kv.2)

/-- Modelled from the spec: the exact addressed value of a path, walking
StringKey segments through Objects and in-range (`0 ≤ i < length`)
IntIndex segments through Arrays; any other combination is absent. -/
def addrWalk : Document → List Seg → Option Document
  | d, [] => some d
  | .obj fields, .str k :: rest =>
    match objGet fields k with
    | some v => addrWalk v rest
    | none => none
  | .arr xs, .int i :: rest =>
    if 0 ≤ i ∧ i < (xs.length : Int) then
      match xs.get? i.toNat with
      | some v => addrWalk v rest
      | none => none
    else none
  | _, _ :: _ => none

/-- Mismatch predicate of the amended resolver property: the walk hits a
missing key, an index outside Python range, a non-numeric string key on an
array, an integer segment on an object, or a segment applied to a
scalar or null value. -/
def hitsMismatch : Document → List Seg → Bool
  | _, [] => false
  | .obj fields, .str k :: rest =>
    match objGet fields k with
    | some v => hitsMismatch v rest
    | none => true
  | .obj _, .int _ :: _ => true
  | .arr xs, sg :: rest =>
    (match segToInt sg with
     | Except.ok i =>
       match pyIndex xs i with
       | some v => hitsMismatch v rest
       | none => true
     | Except.error _ => true)
  | _, _ :: _ => true

/-- A failing `pyInt` always raises `ValueError`. -/
theorem pyInt_error {s : String} {e : PyErr} (h : pyInt s = Except.error e) :
    e = .valueError := by
  unfold pyInt at h
  split at h
  · exact (Except.error.inj h).symm
  · split at h
    · exact absurd h (by simp)
    · exact (Except.error.inj h).symm

/-- Equation lemma for the walk on an empty path. -/
theorem walkBody_nil (d : Document) : walkBody d [] = Except.ok d := by
  cases d <;> rfl

/-- Equation lemma for the walk on `None` with segments remaining. -/
theorem walkBody_null (sg : Seg) (rest : List Seg) :
    walkBody .null (sg :: rest) = Except.ok Document.null := by
  cases sg <;> rfl

/-- Equation lemma for the walk on a boolean with segments remaining. -/
theorem walkBody_bool (b : Bool) (sg : Seg) (rest : List Seg) :
    walkBody (.bool b) (sg :: rest) = Except.ok Document.null := by
  cases sg <;> rfl

/-- Equation lemma for the walk on an integer with segments remaining. -/
theorem walkBody_int (i : Int) (sg : Seg) (rest : List Seg) :
    walkBody (.int i) (sg :: rest) = Except.ok Document.null := by
  cases sg <;> rfl

/-- Equation lemma for the walk on a string with segments remaining. -/
theorem walkBody_str (s : String) (sg : Seg) (rest : List Seg) :
    walkBody (.str s) (sg :: rest) = Except.ok Document.null := by
  cases sg <;> rfl

/-- A failing `segToInt` always raises `ValueError`. -/
theorem segToInt_error {sg : Seg} {e : PyErr} (h : segToInt sg = Except.error e) :
    e = .valueError := by
  cases sg with
  | int i => exact absurd h (by simp [segToInt])
  | str s => exact pyInt_error h

/-- For a nonnegative in-range index, Python indexing is plain indexing. -/
theorem pyIndex_nonneg {xs : List Document} {i : Int} (h0 : 0 ≤ i)
    (hl : i < (xs.length : Int)) : pyIndex xs i = xs.get? i.toNat := by
  have hn : ¬ i < 0 := by omega
  simp [pyIndex, hn, h0, hl]

/-- The code's walk succeeds with the exact addressed value on every path
the spec-side walk addresses. -/
theorem walkBody_of_addrWalk : ∀ (p : List Seg) (d v : Document),
    addrWalk d p = some v → walkBody d p = Except.ok v := by
  intro p
  induction p with
  | nil =>
    intro d v h
    simp only [addrWalk, Option.some.injEq] at h
    subst h
    exact walkBody_nil d
  | cons sg rest ih =>
    intro d v h
    cases d with
    | obj fields =>
      cases sg with
      | str k =>
        cases hg : objGet fields k with
        | some w =>
          simp only [addrWalk, hg] at h
          simpa only [walkBody, hg] using ih w v h
        | none => simp [addrWalk, hg] at h
      | int i => simp [addrWalk] at h
    | arr xs =>
      cases sg with
      | str k => simp [addrWalk] at h
      | int i =>
        simp only [addrWalk] at h
        split at h
        · rename_i hrange
          cases hx : xs.get? i.toNat with
          | some w =>
            rw [hx] at h
            have hw := ih w v h
            simp only [walkBody, segToInt, pyIndex_nonneg hrange.1 hrange.2, hx]
            exact hw
          | none => rw [hx] at h; exact absurd h (by simp)
        · exact absurd h (by simp)
    | null => simp [addrWalk] at h
    | bool b => simp [addrWalk] at h
    | int i => simp [addrWalk] at h
    | str s => simp [addrWalk] at h

/-- Every exception the walk can raise is in the caught set of
`_get_nested_value`. -/
theorem walkBody_error_caught : ∀ (p : List Seg) (d : Document) (e : PyErr),
    walkBody d p = Except.error e → caughtErr e = true := by
  intro p
  induction p with
  | nil => intro d e h; rw [walkBody_nil] at h; exact absurd h (by simp)
  | cons sg rest ih =>
    intro d e h
    cases d with
    | obj fields =>
      cases sg with
      | str k =>
        cases hg : objGet fields k with
        | some w =>
          simp only [walkBody, hg] at h
          exact ih w e h
        | none =>
          simp only [walkBody, hg, Except.error.injEq] at h
          subst h; rfl
      | int i =>
        simp only [walkBody, Except.error.injEq] at h
        subst h; rfl
    | arr xs =>
      cases hs : segToInt sg with
      | error e2 =>
        simp only [walkBody, hs, Except.error.injEq] at h
        subst h
        rw [segToInt_error hs]
        rfl
      | ok i =>
        cases hx : pyIndex xs i with
        | some w =>
          simp only [walkBody, hs, hx] at h
          exact ih w e h
        | none =>
          simp only [walkBody, hs, hx, Except.error.injEq] at h
          subst h; rfl
    | null => rw [walkBody_null] at h; exact absurd h (by simp)
    | bool b => rw [walkBody_bool] at h; exact absurd h (by simp)
    | int i => rw [walkBody_int] at h; exact absurd h (by simp)
    | str s => rw [walkBody_str] at h; exact absurd h (by simp)

/-- The `except` clause of `_get_nested_value` handles every exception the
body can raise: the wrapped call always returns normally. -/
theorem getNestedValueExc_ok (d : Document) (p : List Seg) :
    getNestedValueExc d p = Except.ok (getNestedValue d p) := by
  unfold getNestedValue getNestedValueExc getNestedBody
  cases hw : walkBody d p with
  | ok v => rfl
  | error e =>
    have hc := walkBody_error_caught p d e hw
    simp [Except.map, hc]

/-- A walk error makes `_get_nested_value` return `None`. -/
theorem getNested_of_walkErr {d : Document} {p : List Seg} {e : PyErr}
    (hw : walkBody d p = Except.error e) : getNestedValue d p = .null := by
  have hc := walkBody_error_caught p d e hw
  unfold getNestedValue getNestedValueExc getNestedBody
  rw [hw]
  simp [Except.map, hc]

/-- A successful walk makes `_get_nested_value` return the terminal-array
unwrap of the walked value. -/
theorem getNested_of_walkOk {d : Document} {p : List Seg} {v : Document}
    (hw : walkBody d p = Except.ok v) : getNestedValue d p = unwrapTerminal v := by
  unfold getNestedValue getNestedValueExc getNestedBody
  rw [hw]
  simp [Except.map]

/-- Stepping lemma: if two arguments give the same walk, they give the same
resolved value. -/
theorem getNested_congr {d w : Document} {p q : List Seg}
    (h : walkBody d p = walkBody w q) :
    getNestedValue d p = getNestedValue w q := by
  unfold getNestedValue getNestedValueExc getNestedBody
  rw [h]

/-- A mismatch anywhere along the path makes `_get_nested_value` return
`None`. -/
theorem getNested_null_of_mismatch : ∀ (p : List Seg) (d : Document),
    hitsMismatch d p = true → getNestedValue d p = .null := by
  intro p
  induction p with
  | nil => intro d h; simp [hitsMismatch] at h
  | cons sg rest ih =>
    intro d h
    cases d with
    | obj fields =>
      cases sg with
      | str k =>
        cases hg : objGet fields k with
        | some w =>
          simp only [hitsMismatch, hg] at h
          have hstep : walkBody (.obj fields) (.str k :: rest) = walkBody w rest := by
            simp [walkBody, hg]
          rw [getNested_congr hstep]
          exact ih w h
        | none => exact getNested_of_walkErr (e := .keyError) (by simp [walkBody, hg])
      | int i => exact getNested_of_walkErr (e := .keyError) (by simp [walkBody])
    | arr xs =>
      cases hs : segToInt sg with
      | error e2 => exact getNested_of_walkErr (e := e2) (by simp [walkBody, hs])
      | ok i =>
        cases hx : pyIndex xs i with
        | some w =>
          simp only [hitsMismatch, hs, hx] at h
          have hstep : walkBody (.arr xs) (sg :: rest) = walkBody w rest := by
            simp [walkBody, hs, hx]
          rw [getNested_congr hstep]
          exact ih w h
        | none => exact getNested_of_walkErr (e := .indexError) (by simp [walkBody, hs, hx])
    | null => rw [getNested_of_walkOk (walkBody_null sg rest)]; rfl
    | bool b => rw [getNested_of_walkOk (walkBody_bool b sg rest)]; rfl
    | int i => rw [getNested_of_walkOk (walkBody_int i sg rest)]; rfl
    | str s => rw [getNested_of_walkOk (walkBody_str s sg rest)]; rfl

/-- Characterisation of the `published_values` entry of one sweep step. -/
theorem pubStep_values (out : String → PubOutcome) (pref : String) (doc : Document)
    (m : Metric) :
    (pubStep out pref doc m).2
      = if !(getNestedValue doc m.path).isNone && pubOkBool out m.name
        then some (m.name, pubPayload doc m) else none := by
  unfold pubStep pubOkBool
  cases h1 : (getNestedValue doc m.path).isNone with
  | true => simp [h1]
  | false =>
    cases ho : out m.name with
    | ret rc =>
      by_cases h2 : rc = 0
      · simp [h1, h2]
      · simp [h1, h2]
    | exn => simp [h1]

/-- Characterisation of the skipped-name log entries of one sweep step. -/
theorem pubStep_skipped (out : String → PubOutcome) (pref : String) (doc : Document)
    (m : Metric) :
    skippedNames (pubStep out pref doc m).1
      = if (getNestedValue doc m.path).isNone || !(pubOkBool out m.name)
        then [m.name] else [] := by
  unfold pubStep pubOkBool
  cases h1 : (getNestedValue doc m.path).isNone with
  | true => simp [h1, skippedNames]
  | false =>
    cases ho : out m.name with
    | ret rc =>
      by_cases h2 : rc = 0
      · simp [h1, h2, skippedNames]
      · simp [h1, h2, skippedNames]
    | exn => simp [h1, skippedNames]

/-- Every publish action a sweep step emits targets that step's metric
topic, and only a resolvable metric is published. -/
theorem pubStep_pub_mem {out : String → PubOutcome} {pref : String} {doc : Document}
    {m : Metric} {tp pl : String} {rt : Bool}
    (h : Act.publish tp pl rt ∈ (pubStep out pref doc m).1) :
    tp = pref ++ m.name ∧ (getNestedValue doc m.path).isNone = false := by
  unfold pubStep at h
  cases h1 : (getNestedValue doc m.path).isNone with
  | true => rw [h1] at h; simp at h
  | false =>
    rw [h1] at h
    refine ⟨?_, rfl⟩
    cases ho : out m.name with
    | ret rc =>
      rw [ho] at h
      by_cases h2 : rc = 0 <;> simp [h2] at h
      · exact h.1
      · exact h.1
    | exn => rw [ho] at h; simp at h

/-- The published names of a sweep are the resolvable, successfully
published metrics, in table order. -/
theorem sweep_values_names (out : String → PubOutcome) (pref : String) (doc : Document) :
    ∀ ms : List Metric,
      (pubSweep out pref doc ms).values.map Prod.fst
        = (ms.filter
            (fun m => !(getNestedValue doc m.path).isNone && pubOkBool out m.name)).map
            Metric.name := by
  intro ms
  induction ms with
  | nil => rfl
  | cons m ms ih =>
    simp only [pubSweep, List.filter_cons]
    rw [List.map_append, ih, pubStep_values]
    cases hc : (!(getNestedValue doc m.path).isNone && pubOkBool out m.name) with
    | true => simp
    | false => simp

/-- The skipped names of a sweep are the unresolvable or unpublished
metrics, in table order. -/
theorem sweep_skipped (out : String → PubOutcome) (pref : String) (doc : Document) :
    ∀ ms : List Metric,
      skippedNames (pubSweep out pref doc ms).acts
        = (ms.filter
            (fun m => (getNestedValue doc m.path).isNone || !(pubOkBool out m.name))).map
            Metric.name := by
  intro ms
  induction ms with
  | nil => rfl
  | cons m ms ih =>
    simp only [pubSweep, List.filter_cons, skippedNames, List.filterMap_append]
    have hs := pubStep_skipped out pref doc m
    unfold skippedNames at hs ih
    rw [hs, ih]
    cases hc : ((getNestedValue doc m.path).isNone || !(pubOkBool out m.name)) with
    | true => simp
    | false => simp

/-- Step actions are among the sweep actions of any list containing the
metric. -/
theorem sweep_acts_mem (out : String → PubOutcome) (pref : String) (doc : Document)
    {m : Metric} {a : Act} : ∀ {ms : List Metric},
    m ∈ ms → a ∈ (pubStep out pref doc m).1 → a ∈ (pubSweep out pref doc ms).acts := by
  intro ms
  induction ms with
  | nil => intro h; cases h
  | cons m2 ms ih =>
    intro hm ha
    simp only [pubSweep]
    rcases List.mem_cons.mp hm with rfl | hm2
    · exact List.mem_append.mpr (Or.inl ha)
    · exact List.mem_append.mpr (Or.inr (ih hm2 ha))

/-- A step's `published_values` entry is among the sweep values of any list
containing the metric. -/
theorem sweep_values_mem {out : String → PubOutcome} {pref : String} {doc : Document}
    {m : Metric} {x : String × String} : ∀ {ms : List Metric},
    m ∈ ms → (pubStep out pref doc m).2 = some x →
    x ∈ (pubSweep out pref doc ms).values := by
  intro ms
  induction ms with
  | nil => intro h; cases h
  | cons m2 ms ih =>
    intro hm hx
    simp only [pubSweep]
    rcases List.mem_cons.mp hm with rfl | hm2
    · exact List.mem_append.mpr (Or.inl (by simp [hx]))
    · exact List.mem_append.mpr (Or.inr (ih hm2 hx))

/-- Every publish action of a sweep comes from some resolvable metric of
the swept list and targets its topic. -/
theorem sweep_pub_src {out : String → PubOutcome} {pref : String} {doc : Document}
    {tp pl : String} {rt : Bool} : ∀ {ms : List Metric},
    Act.publish tp pl rt ∈ (pubSweep out pref doc ms).acts →
    ∃ m, m ∈ ms ∧ tp = pref ++ m.name ∧ (getNestedValue doc m.path).isNone = false := by
  intro ms
  induction ms with
  | nil => intro h; simp [pubSweep] at h
  | cons m2 ms ih =>
    intro h
    simp only [pubSweep] at h
    rcases List.mem_append.mp h with h1 | h2
    · obtain ⟨ht, hn⟩ := pubStep_pub_mem h1
      exact ⟨m2, List.mem_cons_self m2 ms, ht, hn⟩
    · obtain ⟨m, hm, ht, hn⟩ := ih h2
      exact ⟨m, List.mem_cons_of_mem m2 hm, ht, hn⟩

/-- The summary tail of `_publish_metrics` records no skipped name. -/
theorem pm_skipped (out : String → PubOutcome) (pref : String) (doc : Document) :
    skippedNames (publishMetrics out pref doc).acts
      = skippedNames (pubSweep out pref doc topicMappings).acts := by
  simp only [publishMetrics, skippedNames, List.filterMap_append]
  cases (pubSweep out pref doc topicMappings).values.isEmpty <;> simp

/-- Every publish action of `_publish_metrics` comes from a resolvable
metric of the table and targets its topic. -/
theorem pm_pub_src {out : String → PubOutcome} {pref : String} {doc : Document}
    {tp pl : String} {rt : Bool}
    (h : Act.publish tp pl rt ∈ (publishMetrics out pref doc).acts) :
    ∃ m, m ∈ topicMappings ∧ tp = pref ++ m.name
      ∧ (getNestedValue doc m.path).isNone = false := by
  simp only [publishMetrics] at h
  rcases List.mem_append.mp h with h1 | h2
  · exact sweep_pub_src h1
  · exfalso
    revert h2
    cases (pubSweep out pref doc topicMappings).values.isEmpty <;> simp

/-- The metric names of the table are pairwise distinct. -/
theorem topic_names_nodup : (topicMappings.map Metric.name).Nodup := by decide

/-- No metric name equals the availability topic suffix. -/
theorem topic_names_ne_avail : ∀ m ∈ topicMappings, m.name ≠ "availability" := by decide

/-- Appending to a common first component is injective for strings. -/
theorem strCancel (p a b : String) (h : p ++ a = p ++ b) : a = b := by
  have hd : (p ++ a).data = (p ++ b).data := by rw [h]
  simp only [String.data_append] at hd
  have h2 := List.append_cancel_left hd
  cases a; cases b; exact congrArg String.mk h2

/-- The poll-cycle body never publishes retained offline to the
availability topic. -/
theorem cycleBody_no_avail (out2 : String → PubOutcome) (pref : String) (fr : FetchResult) :
    Act.publish (availTopic pref) "offline" true ∉ (cycleBody out2 pref fr).1 := by
  cases fr with
  | reqError => intro h; simp [cycleBody, fetchEconetData] at h
  | jsonError => intro h; simp [cycleBody, fetchEconetData] at h
  | success d =>
    by_cases ht : pyTruthy d
    · intro h
      have heq : cycleBody out2 pref (.success d)
          = ([Act.infoPolling] ++ (publishMetrics out2 pref d).acts, none) := by
        simp [cycleBody, fetchEconetData, ht]
      rw [heq] at h
      rcases List.mem_cons.mp h with h1 | h1
      · simp at h1
      · obtain ⟨m, hm, htopic, _⟩ := pm_pub_src h1
        exact topic_names_ne_avail m hm (strCancel pref "availability" m.name htopic).symm
    · intro h
      have heq : cycleBody out2 pref (.success d)
          = ([Act.infoPolling, Act.errFetchFailed], none) := by
        simp [cycleBody, fetchEconetData, ht]
      rw [heq] at h
      simp at h

/-- The poll loop itself never publishes retained offline to the
availability topic; only the shutdown path does. -/
theorem runLoop_no_avail (out : Nat → String → PubOutcome) (pref : String) (interval : Nat) :
    ∀ (fuel : Nat) (running : Nat → Bool) (fetch : Nat → FetchResult) (cyc t : Nat),
      Act.publish (availTopic pref) "offline" true
        ∉ runLoop out pref interval fuel running fetch cyc t := by
  intro fuel
  induction fuel with
  | zero => intro running fetch cyc t h; simp [runLoop] at h
  | succ n ih =>
    intro running fetch cyc t h
    simp only [runLoop] at h
    by_cases hr : running t
    · rw [if_pos hr] at h
      have hno := cycleBody_no_avail (out cyc) pref (fetch cyc)
      rcases hc : cycleBody (out cyc) pref (fetch cyc) with ⟨acts, exc⟩
      rw [hc] at h hno
      cases exc with
      | some e =>
        rcases List.mem_append.mp h with h1 | h1
        · exact hno h1
        · simp at h1
      | none =>
        rcases List.mem_append.mp h with h1 | h1
        · exact hno h1
        · exact ih running fetch (cyc + 1) (waitExit running interval t) h1
    · rw [if_neg hr] at h
      simp at h

/-- Upper bound on the wait exit once the flag is cleared: the first check
at or after the clearing time leaves the wait. -/
theorem waitExit_le_of_cleared (running : Nat → Bool) (t : Nat)
    (hmono : ∀ u, t ≤ u → running u = false) :
    ∀ (interval start : Nat), start ≤ t → waitExit running interval start ≤ t + 1 := by
  intro interval
  induction interval with
  | zero => intro start hs; unfold waitExit; omega
  | succ n ih =>
    intro start hs
    unfold waitExit
    by_cases hr : running start
    · rw [if_pos hr]
      have hlt : start < t := by
        by_contra hge
        push_neg at hge
        exact absurd (hmono start hge) (by simp [hr])
      exact ih (start + 1) (by omega)
    · rw [if_neg hr]; omega

/-- The wait never exceeds the configured interval. -/
theorem waitExit_le_interval (running : Nat → Bool) :
    ∀ (interval start : Nat), waitExit running interval start ≤ start + interval := by
  intro interval
  induction interval with
  | zero => intro start; unfold waitExit; omega
  | succ n ih =>
    intro start
    unfold waitExit
    by_cases hr : running start
    · rw [if_pos hr]
      have := ih (start + 1)
      omega
    · rw [if_neg hr]; omega

/-- C2 counterexample: the claim says an Array addressed by a StringKey
always yields absent; the code converts the key with `int(key)`, so a
numeric string key descends into the array, and a negative integer index
uses Python end-relative indexing instead of being out of range. -/
theorem resolver_array_string_key_counterexample :
    getNestedValue (.arr [.int 10, .int 20]) [.str "0"] = .int 10
    ∧ getNestedValue (.arr [.int 10, .int 20]) [.int (-1)] = .int 20 :=
  ⟨rfl, rfl⟩

/-- C2 (amended): `_get_nested_value` never raises — its `except` clause
covers every exception the body can produce — and any walk that hits a
missing key, an index outside Python range, a non-numeric string key on an
array, an integer segment on an object, or a segment applied to a scalar
or null, returns `None`. -/
theorem resolver_total_and_mismatch_absent (d : Document) (p : List Seg) :
    getNestedValueExc d p = Except.ok (getNestedValue d p)
    ∧ (hitsMismatch d p = true → getNestedValue d p = .null) :=
  ⟨getNestedValueExc_ok d p, fun h => getNested_null_of_mismatch p d h⟩

/-- C2 witness: a concrete missing-key document resolves to `None`. -/
theorem resolver_total_and_mismatch_absent_witness :
    hitsMismatch (.obj [("curr", .int 1)]) [.str "missing"] = true
    ∧ getNestedValue (.obj [("curr", .int 1)]) [.str "missing"] = .null :=
  ⟨rfl, (resolver_total_and_mismatch_absent (.obj [("curr", .int 1)]) [.str "missing"]).2 rfl⟩

/-- C3: on every path the spec-side walk addresses (existing keys,
in-range indices), `_get_nested_value` returns exactly the addressed
value, with the terminal-array unwrap to element 0 for a non-empty final
array. -/
theorem resolver_exact_on_valid_paths (d : Document) (p : List Seg) (v : Document)
    (h : addrWalk d p = some v) : getNestedValue d p = unwrapTerminal v :=
  getNested_of_walkOk (walkBody_of_addrWalk p d v h)

/-- C3 witness: a concrete scalar resolution and a concrete terminal-array
unwrap. -/
theorem resolver_exact_on_valid_paths_witness :
    getNestedValue (.obj [("curr", .obj [("AxenOutdoorTemp", .str "5.2")])])
      [.str "curr", .str "AxenOutdoorTemp"] = unwrapTerminal (.str "5.2")
    ∧ getNestedValue (.obj [("a", .arr [.arr [.str "21.0", .int 1, .int 0]])])
      [.str "a", .int 0] = unwrapTerminal (.arr [.str "21.0", .int 1, .int 0]) :=
  ⟨resolver_exact_on_valid_paths _ _ _ rfl, resolver_exact_on_valid_paths _ _ _ rfl⟩

/-- C6 counterexample: the claim says any scalar other than 0 and 3
renders as its default string form; the code compares with Python `==`,
which identifies `False` with 0, so the boolean false renders as `"CH"`
instead of `"False"`. -/
theorem valve_state_false_counterexample :
    convertValveState (Document.bool false) = "CH"
    ∧ pyStr (Document.bool false) = "False"
    ∧ Document.bool false ≠ Document.int 0
    ∧ Document.bool false ≠ Document.int 3 :=
  ⟨rfl, rfl, fun h => Document.noConfusion h, fun h => Document.noConfusion h⟩

/-- C6 (amended): the valve-state renderer yields `"CH"` for the number 0
and for the boolean false (Python `==` identifies them), `"DHW"` for the
number 3, and the default string form for every other value, never an
error. -/
theorem valve_state_render (v : Document) :
    convertValveState (Document.int 0) = "CH"
    ∧ convertValveState (Document.bool false) = "CH"
    ∧ convertValveState (Document.int 3) = "DHW"
    ∧ (v ≠ Document.int 0 → v ≠ Document.bool false → v ≠ Document.int 3 →
        convertValveState v = pyStr v) := by
  refine ⟨rfl, rfl, rfl, ?_⟩
  intro h0 hf h3
  cases v with
  | null => rfl
  | bool b =>
    cases b with
    | false => exact absurd rfl hf
    | true => rfl
  | int i =>
    have hi0 : i ≠ 0 := fun hh => h0 (by rw [hh])
    have hi3 : i ≠ 3 := fun hh => h3 (by rw [hh])
    simp [convertValveState, pyEqInt, hi0, hi3, pyStr]
  | str s => rfl
  | arr xs => rfl
  | obj fields => rfl

/-- C6 witness: the unknown code 7 passes through as `"7"`. -/
theorem valve_state_render_witness :
    convertValveState (Document.int 7) = pyStr (Document.int 7)
    ∧ pyStr (Document.int 7) = "7" :=
  ⟨(valve_state_render (Document.int 7)).2.2.2
      (fun hh => by injection hh with h7; exact absurd h7 (by decide))
      (fun hh => Document.noConfusion hh)
      (fun hh => by injection hh with h7; exact absurd h7 (by decide)),
    rfl⟩

/-- C8: the inter-cycle wait is decomposed into 1-second sleeps with the
shutdown flag checked before each one, so once the flag is cleared at time
`t` during the wait, the wait hands control back by `t + 1`, and in any
case within the configured interval. -/
theorem wait_interruptible (running : Nat → Bool) (interval start t : Nat)
    (hmono : ∀ u, t ≤ u → running u = false) (hstart : start ≤ t) :
    waitExit running interval start ≤ t + 1
    ∧ waitExit running interval start ≤ start + interval :=
  ⟨waitExit_le_of_cleared running t hmono interval start hstart,
    waitExit_le_interval running interval start⟩

/-- C8 witness: a flag cleared at second 5 ends a 100-second wait started
at second 3 no later than second 6. -/
theorem wait_interruptible_witness :
    waitExit (fun u => decide (u < 5)) 100 3 ≤ 5 + 1
    ∧ waitExit (fun u => decide (u < 5)) 100 3 ≤ 3 + 100 :=
  wait_interruptible (fun u => decide (u < 5)) 100 3 5
    (fun u hu => by simp [decide_eq_false_iff_not]; omega) (by omega)

/-- C1 evaluation at the failing input: with the shutdown flag never set,
ample fuel, and a fetch failure in the first cycle, the run performs
exactly one polling attempt — the fetch handler's `logger.error(...,
file=sys.stderr)` raises `TypeError`, no fetch-failure log is emitted,
the loop-boundary handler logs the unexpected error, and the loop
terminates into the shutdown path instead of continuing to the next
interval. -/
theorem run_loop_terminates_on_fetch_failure :
    runModel (fun _ _ => PubOutcome.ret 0) "econet/" 10 5 (fun _ => true)
      (fun _ => .reqError)
    = [Act.infoPolling, Act.errUnexpected, Act.infoShuttingDown,
       Act.publish "econet/availability" "offline" true, Act.loopStop, Act.disconnect,
       Act.infoShutdownComplete] := rfl

/-- C4: the publish sweep processes the whole table in order: the
published names are exactly the resolvable and successfully published
metrics and the skip-logged names are exactly the rest, both in table
order; an all-skipped cycle only logs a warning; and a cycle body over a
fetched document never raises, so the loop proceeds to the next interval. -/
theorem publish_sweep_contract (out : String → PubOutcome) (pref : String) (doc : Document) :
    (publishMetrics out pref doc).values.map Prod.fst
      = (topicMappings.filter
          (fun m => !(getNestedValue doc m.path).isNone && pubOkBool out m.name)).map
          Metric.name
    ∧ skippedNames (publishMetrics out pref doc).acts
      = (topicMappings.filter
          (fun m => (getNestedValue doc m.path).isNone || !(pubOkBool out m.name))).map
          Metric.name
    ∧ ((publishMetrics out pref doc).values.isEmpty = true →
        Act.warnNoValues ∈ (publishMetrics out pref doc).acts)
    ∧ (cycleBody out pref (.success doc)).2 = none := by
  refine ⟨?_, ?_, ?_, ?_⟩
  · have hv : (publishMetrics out pref doc).values
        = (pubSweep out pref doc topicMappings).values := rfl
    rw [hv, sweep_values_names]
  · rw [pm_skipped, sweep_skipped]
  · intro he
    have he2 : (pubSweep out pref doc topicMappings).values.isEmpty = true := he
    simp [publishMetrics, he2]
  · cases ht : pyTruthy doc <;> simp [cycleBody, fetchEconetData, ht]

/-- C4 witness: on an empty document every metric is skipped (in table
order) and the zero-published warning is logged. -/
theorem publish_sweep_contract_witness :
    skippedNames (publishMetrics (fun _ => PubOutcome.ret 0) "econet/" (.obj [])).acts
      = (topicMappings.filter
          (fun m => (getNestedValue (.obj []) m.path).isNone
            || !(pubOkBool (fun _ => PubOutcome.ret 0) m.name))).map Metric.name
    ∧ Act.warnNoValues ∈ (publishMetrics (fun _ => PubOutcome.ret 0) "econet/" (.obj [])).acts :=
  ⟨(publish_sweep_contract (fun _ => PubOutcome.ret 0) "econet/" (.obj [])).2.1,
    (publish_sweep_contract (fun _ => PubOutcome.ret 0) "econet/" (.obj [])).2.2.1 rfl⟩

/-- C5: the availability protocol — initial state Offline; a successful
connect publishes retained online and moves the state to Online; every
terminating run publishes retained offline in the shutdown path before the
process exits; the retained offline last-will is registered at startup; and the
loop itself never publishes offline to the availability topic, so an
abrupt termination publishes nothing explicitly and only the last-will
covers it. -/
theorem availability_protocol (pref : String) :
    availStateAfter pref [] = .offline
    ∧ onMqttConnect pref 0 = [.infoConnected, .publish (availTopic pref) "online" true]
    ∧ availStateAfter pref (onMqttConnect pref 0) = .online
    ∧ initWillSet pref = .willSet (availTopic pref) "offline" true
    ∧ (∀ (out : Nat → String → PubOutcome) (interval fuel : Nat)
        (running : Nat → Bool) (fetch : Nat → FetchResult),
        runModel out pref interval fuel running fetch
          = runLoop out pref interval fuel running fetch 0 0
            ++ [.infoShuttingDown] ++ disconnectMqtt pref ++ [.infoShutdownComplete]
        ∧ Act.publish (availTopic pref) "offline" true ∈ disconnectMqtt pref)
    ∧ (∀ (out : Nat → String → PubOutcome) (interval fuel : Nat)
        (running : Nat → Bool) (fetch : Nat → FetchResult) (cyc t : Nat),
        Act.publish (availTopic pref) "offline" true
          ∉ runLoop out pref interval fuel running fetch cyc t) := by
  refine ⟨rfl, rfl, ?_, rfl, ?_, ?_⟩
  · simp [availStateAfter, onMqttConnect, availStep]
  · intro out interval fuel running fetch
    exact ⟨rfl, by simp [disconnectMqtt]⟩
  · intro out interval fuel running fetch cyc t
    exact runLoop_no_avail out pref interval fuel running fetch cyc t

/-- C5 witness: with the default prefix, a terminating run's trace ends by
publishing retained offline, and the loop part of a concrete run contains
no availability-offline publish. -/
theorem availability_protocol_witness :
    availStateAfter "econet/" (onMqttConnect "econet/" 0) = .online
    ∧ Act.publish (availTopic "econet/") "offline" true
        ∉ runLoop (fun _ _ => PubOutcome.ret 0) "econet/" 10 3 (fun _ => true)
            (fun _ => .success (.obj [])) 0 0 :=
  ⟨(availability_protocol "econet/").2.2.1,
    (availability_protocol "econet/").2.2.2.2.2
      (fun _ _ => PubOutcome.ret 0) 10 3 (fun _ => true) (fun _ => .success (.obj [])) 0 0⟩

/-- The component kind is always one of the two sensor kinds. -/
theorem componentOf_cases (c : HaConfig) :
    componentOf c = "sensor" ∨ componentOf c = "binary_sensor" := by
  unfold componentOf
  split <;> simp

/-- On every table entry, the code's binary-sensor test (running device
class or a `payload_on` entry) agrees with the spec's condition (running
device class or an on/off payload pair). -/
theorem component_pair_table :
    ∀ p ∈ haDiscoveryConfigs,
      (componentOf p.2 = "binary_sensor")
        ↔ (p.2.deviceClass = some "running"
            ∨ (p.2.payloadOn.isSome ∧ p.2.payloadOff.isSome)) := by
  decide

/-- The discovery payload contains `expire_after = interval * 4` exactly
for `sensor` components, and omits the key entirely otherwise. -/
theorem discovery_expire_lookup (interval : Nat) (pref devName tn : String) (c : HaConfig) :
    kvLookup "expire_after" (discoveryPayload interval pref devName tn c)
      = if componentOf c = "sensor" then some (Document.int (interval * 4)) else none := by
  rcases c with ⟨n, dc, sc, u, ic, po, pf, op⟩
  unfold kvLookup discoveryPayload
  simp only [List.find?_append]
  by_cases hc : componentOf ⟨n, dc, sc, u, ic, po, pf, op⟩ = "sensor"
  · have hb : ¬ componentOf ⟨n, dc, sc, u, ic, po, pf, op⟩ = "binary_sensor" := by
      rw [hc]; simp
    rw [if_pos hc, if_pos hc, if_neg hb]
    simp
  · have hb : componentOf ⟨n, dc, sc, u, ic, po, pf, op⟩ = "binary_sensor" := by
      rcases componentOf_cases ⟨n, dc, sc, u, ic, po, pf, op⟩ with h | h
      · exact absurd h hc
      · exact h
    rw [if_neg hc, if_neg hc, if_pos hb]
    cases dc <;> cases sc <;> cases u <;> cases po <;> cases pf <;> cases op <;>
      split_ifs <;> simp

/-- C7: for every metric of the table, the discovery component kind is
`binary_sensor` exactly when the metadata declares a running device class
or an on/off payload pair, else `sensor`; and the payload carries
`expire_after = 4 * pollIntervalSeconds` exactly when the component is
`sensor`, omitting the key entirely for binary sensors. -/
theorem discovery_component_and_expiry (interval : Nat) (pref devName tn : String)
    (c : HaConfig) (hm : (tn, c) ∈ haDiscoveryConfigs) :
    ((componentOf c = "binary_sensor")
      ↔ (c.deviceClass = some "running" ∨ (c.payloadOn.isSome ∧ c.payloadOff.isSome)))
    ∧ kvLookup "expire_after" (discoveryPayload interval pref devName tn c)
      = if componentOf c = "sensor" then some (Document.int (interval * 4)) else none :=
  ⟨component_pair_table (tn, c) hm, discovery_expire_lookup interval pref devName tn c⟩

/-- C7 witness: with a 10-second interval, the ambient-temperature sensor
entry carries `expire_after = 40`, and the pump binary-sensor entry omits
the key. -/
theorem discovery_component_and_expiry_witness :
    kvLookup "expire_after"
      (discoveryPayload 10 "econet/" "Grant R290" "ashp_ambient_air_temp"
        { name := "ASHP Ambient Air Temperature", deviceClass := some "temperature",
          stateClass := some "measurement", unitOfMeasurement := some "°C",
          icon := "mdi:thermometer" })
      = (if componentOf
            { name := "ASHP Ambient Air Temperature", deviceClass := some "temperature",
              stateClass := some "measurement", unitOfMeasurement := some "°C",
              icon := "mdi:thermometer" } = "sensor"
          then some (Document.int (10 * 4)) else none)
    ∧ kvLookup "expire_after"
      (discoveryPayload 10 "econet/" "Grant R290" "ashp_pump_active"
        { name := "ASHP Pump", deviceClass := some "running",
          stateClass := some "measurement", icon := "mdi:pump",
          payloadOn := some "1", payloadOff := some "0" })
      = (if componentOf
            { name := "ASHP Pump", deviceClass := some "running",
              stateClass := some "measurement", icon := "mdi:pump",
              payloadOn := some "1", payloadOff := some "0" } = "sensor"
          then some (Document.int (10 * 4)) else none) :=
  ⟨(discovery_component_and_expiry 10 "econet/" "Grant R290" "ashp_ambient_air_temp" _
      (by decide)).2,
    (discovery_component_and_expiry 10 "econet/" "Grant R290" "ashp_pump_active" _
      (by decide)).2⟩

/-- Two table metrics with the same name are the same metric. -/
theorem table_name_inj {m m2 : Metric} (hm : m ∈ topicMappings)
    (hm2 : m2 ∈ topicMappings) (h : m.name = m2.name) : m = m2 :=
  List.inj_on_of_nodup_map topic_names_nodup hm hm2 h

/-- C9: a walk ending at an empty Array resolves to the empty array
itself — neither absent nor unwrapped — and the publish sweep then treats
the metric as present, recording it as published with the stringified
empty array `"[]"` as its payload. -/
theorem empty_array_present_and_published :
    (∀ (d : Document) (p : List Seg),
      addrWalk d p = some (.arr []) → getNestedValue d p = .arr [])
    ∧ (∀ (out : String → PubOutcome) (pref : String) (doc : Document) (m : Metric),
        m ∈ topicMappings → getNestedValue doc m.path = .arr [] → out m.name = .ret 0 →
        (m.name, "[]") ∈ (publishMetrics out pref doc).values
        ∧ Act.publish (pref ++ m.name) "[]" false ∈ (publishMetrics out pref doc).acts) := by
  constructor
  · intro d p hw
    exact getNested_of_walkOk (walkBody_of_addrWalk p d _ hw)
  · intro out pref doc m hm hres hout
    have hnn : (getNestedValue doc m.path).isNone = false := by rw [hres]; rfl
    have hpay : pubPayload doc m = "[]" := by
      unfold pubPayload
      rw [hres]
      by_cases hn : m.name = "three_way_valve_state"
      · rw [if_pos hn]; rfl
      · rw [if_neg hn]; rfl
    have hstep : pubStep out pref doc m
        = ([.publish (pref ++ m.name) "[]" false], some (m.name, "[]")) := by
      simp [pubStep, hnn, hout, hpay]
    constructor
    · exact sweep_values_mem hm (by rw [hstep])
    · have ha := sweep_acts_mem out pref doc hm
        (by rw [hstep]; exact List.mem_singleton_self _)
      exact List.mem_append.mpr (Or.inl ha)

/-- C9 witness: a concrete document whose ambient-temperature path ends at
an empty array is published with payload `"[]"`. -/
theorem empty_array_present_and_published_witness :
    getNestedValue (.obj [("curr", .obj [("AxenOutdoorTemp", .arr [])])])
      [.str "curr", .str "AxenOutdoorTemp"] = .arr []
    ∧ ("ashp_ambient_air_temp", "[]")
        ∈ (publishMetrics (fun _ => PubOutcome.ret 0) "econet/"
            (.obj [("curr", .obj [("AxenOutdoorTemp", .arr [])])])).values :=
  ⟨empty_array_present_and_published.1 _ [.str "curr", .str "AxenOutdoorTemp"] rfl,
    (empty_array_present_and_published.2 (fun _ => PubOutcome.ret 0) "econet/"
      (.obj [("curr", .obj [("AxenOutdoorTemp", .arr [])])])
      ⟨"ashp_ambient_air_temp", [.str "curr", .str "AxenOutdoorTemp"]⟩
      (by decide) rfl rfl).1⟩

/-- C10: an explicit null at the addressed value resolves to `None`,
indistinguishable from a miss, so the sweep logs the metric as skipped
with its name and path, publishes nothing on that metric's topic, and
does not record it as published. -/
theorem null_value_skipped :
    (∀ (d : Document) (p : List Seg),
      addrWalk d p = some .null → getNestedValue d p = .null)
    ∧ (∀ (out : String → PubOutcome) (pref : String) (doc : Document) (m : Metric),
        m ∈ topicMappings → getNestedValue doc m.path = .null →
        Act.warnMissing m.name m.path ∈ (publishMetrics out pref doc).acts
        ∧ (∀ (pl : String) (rt : Bool),
            Act.publish (pref ++ m.name) pl rt ∉ (publishMetrics out pref doc).acts)
        ∧ m.name ∉ (publishMetrics out pref doc).values.map Prod.fst) := by
  constructor
  · intro d p hw
    exact getNested_of_walkOk (walkBody_of_addrWalk p d _ hw)
  · intro out pref doc m hm hres
    have hnn : (getNestedValue doc m.path).isNone = true := by rw [hres]; rfl
    have hstep : pubStep out pref doc m = ([.warnMissing m.name m.path], none) := by
      simp [pubStep, hnn]
    refine ⟨?_, ?_, ?_⟩
    · have ha := sweep_acts_mem out pref doc hm
        (by rw [hstep]; exact List.mem_singleton_self _)
      exact List.mem_append.mpr (Or.inl ha)
    · intro pl rt hmem
      obtain ⟨m2, hm2, ht, hn2⟩ := pm_pub_src hmem
      have heq : m = m2 := table_name_inj hm hm2 (strCancel pref m.name m2.name ht)
      rw [← heq, hnn] at hn2
      exact absurd hn2 (by simp)
    · intro hmem
      have hv : (publishMetrics out pref doc).values
          = (pubSweep out pref doc topicMappings).values := rfl
      rw [hv, sweep_values_names, List.mem_map] at hmem
      obtain ⟨m2, hm2f, hname⟩ := hmem
      rw [List.mem_filter] at hm2f
      obtain ⟨hm2, hcond⟩ := hm2f
      have heq : m = m2 := table_name_inj hm hm2 hname.symm
      rw [← heq, hnn] at hcond
      simp at hcond

/-- C10 witness: a concrete document with an explicit null at the
ambient-temperature value is skip-logged, its topic receives no publish
(in particular not a `"None"` payload), and it is not recorded as
published. -/
theorem null_value_skipped_witness :
    Act.warnMissing "ashp_ambient_air_temp" [.str "curr", .str "AxenOutdoorTemp"]
      ∈ (publishMetrics (fun _ => PubOutcome.ret 0) "econet/"
          (.obj [("curr", .obj [("AxenOutdoorTemp", .null)])])).acts
    ∧ Act.publish "econet/ashp_ambient_air_temp" "None" false
      ∉ (publishMetrics (fun _ => PubOutcome.ret 0) "econet/"
          (.obj [("curr", .obj [("AxenOutdoorTemp", .null)])])).acts :=
  ⟨(null_value_skipped.2 (fun _ => PubOutcome.ret 0) "econet/"
      (.obj [("curr", .obj [("AxenOutdoorTemp", .null)])])
      ⟨"ashp_ambient_air_temp", [.str "curr", .str "AxenOutdoorTemp"]⟩
      (by decide) rfl).1,
    (null_value_skipped.2 (fun _ => PubOutcome.ret 0) "econet/"
      (.obj [("curr", .obj [("AxenOutdoorTemp", .null)])])
      ⟨"ashp_ambient_air_temp", [.str "curr", .str "AxenOutdoorTemp"]⟩
      (by decide) rfl).2.1 "None" false⟩

end Econet

